import Mathlib

/-!
Shallow embedding of the trailing-orders bot (`src/v3_trailing_orders.py`,
with `src/trailing_orders_v2.py` and `src/trailing_orders.py` as historical
variants) for checking the natural-language specification against the code.

Prices and percentages are embedded as rationals (the Python code uses
binary floats; all numeric claims checked here involve values exactly
representable in both). `round(x, 2)` is Python's round-half-to-even at two
decimals. Effectful calls (`placeOrder`, sheet appends, alerts) are embedded
as explicit state: each call appends to a log list inside the state record,
and the order gateway is a caller-supplied oracle `gw : Int → Bool` saying
whether the `placeOrder` call for a given order id returns normally (`true`)
or raises (`false`), matching the `try`/`except` structure of `run_cycle`.
-/

attribute [local semireducible] Rat.mul Rat.inv Rat.add Rat.sub Rat.ofScientific

namespace IbkrBot

/-- Python `str.strip()`: drop whitespace from both ends. -/
def pyStrip (s : String) : String :=
  ⟨((s.data.dropWhile Char.isWhitespace).reverse.dropWhile Char.isWhitespace).reverse⟩

/-- Python `str.upper()` on the ASCII range. -/
def pyUpper (s : String) : String := ⟨s.data.map Char.toUpper⟩

/-- Python `str.lower()` on the ASCII range. -/
def pyLower (s : String) : String := ⟨s.data.map Char.toLower⟩

/-- Python round-half-to-even of a rational to an integer. -/
def roundHalfEven (q : ℚ) : ℤ :=
  let f := q.num.fdiv q.den
  let frac := q - (f : ℚ)
  if frac < 1 / 2 then f
  else if 1 / 2 < frac then f + 1
  else if f % 2 = 0 then f else f + 1

/-- Python `round(q, 2)`. -/
def round2 (q : ℚ) : ℚ := (roundHalfEven (q * 100) : ℚ) / 100

/-- The fields of `ibapi.order.Order` that `build_orders` sets.
`lmtPriceOffset` is set only on the trail leg and `lmtPrice` only on the
stop leg, so both are `Option`. -/
structure Order where
  action : String
  totalQuantity : Int
  orderType : String
  auxPrice : ℚ
  lmtPriceOffset : Option ℚ
  lmtPrice : Option ℚ
  tif : String
  ocaGroup : String
  ocaType : Nat
deriving DecidableEq

/-- `build_orders` from `v3_trailing_orders.py` lines 206-227: builds the
trailing-stop-limit leg and the stop-limit leg sharing one OCA group. -/
def build_orders (qty : Int) (trigger_price trail_amt stop_price : ℚ)
    (tif oca_group : String) : Order × Order :=
  let action := if qty > 0 then "SELL" else "BUY"
  let qty_abs : Int := qty.natAbs
  ({ action := action
     totalQuantity := qty_abs
     orderType := "TRAIL LIMIT"
     auxPrice := round2 trail_amt
     lmtPriceOffset := some (round2 (trigger_price - trail_amt - stop_price))
     lmtPrice := none
     tif := tif
     ocaGroup := oca_group
     ocaType := 1 },
   { action := action
     totalQuantity := qty_abs
     orderType := "STP LMT"
     auxPrice := round2 stop_price
     lmtPriceOffset := none
     lmtPrice := some (round2 stop_price)
     tif := tif
     ocaGroup := oca_group
     ocaType := 1 })

/-- Value of a list of digit characters, most significant first. -/
def digitsVal (cs : List Char) : Nat :=
  cs.foldl (fun n c => 10 * n + (c.toNat - 48)) 0

/-- Python `int(s)` on the plain decimal fragment: optional surrounding
whitespace, optional sign, a nonempty digit string; `none` models the
`ValueError` that `int` raises otherwise. -/
def parseIntStr (s : String) : Option Int :=
  let cs := (pyStrip s).data
  let signAndDigits : Int × List Char :=
    match cs with
    | '-' :: rest => (-1, rest)
    | '+' :: rest => (1, rest)
    | _ => (1, cs)
  let sign := signAndDigits.1
  let ds := signAndDigits.2
  if !ds.isEmpty && ds.all Char.isDigit then some (sign * digitsVal ds) else none

/-- Split a character list on the dot character, the list analogue of
Python viewing `"12.5"` as integer part and fractional part. -/
def splitOnDot (cs : List Char) : List (List Char) :=
  match cs with
  | [] => [[]]
  | c :: rest =>
    let r := splitOnDot rest
    if c = '.' then [] :: r
    else
      match r with
      | [] => [[c]]
      | h :: t => (c :: h) :: t

/-- Python `float(s)` on the plain decimal fragment: optional surrounding
whitespace, optional sign, digits with an optional decimal point and at
least one digit overall; `none` models the `ValueError` otherwise. -/
def parseFloatStr (s : String) : Option ℚ :=
  let cs := (pyStrip s).data
  let signAndDigits : ℚ × List Char :=
    match cs with
    | '-' :: rest => (-1, rest)
    | '+' :: rest => (1, rest)
    | _ => (1, cs)
  let sign := signAndDigits.1
  let ds := signAndDigits.2
  match splitOnDot ds with
  | [ics] =>
    if !ics.isEmpty && ics.all Char.isDigit then some (sign * digitsVal ics) else none
  | [ics, fcs] =>
    if (!ics.isEmpty || !fcs.isEmpty) && ics.all Char.isDigit && fcs.all Char.isDigit then
      some (sign * ((digitsVal ics : ℚ) + (digitsVal fcs : ℚ) / (10 : ℚ) ^ fcs.length))
    else none
  | _ => none

/-- Column indices of the planner header, one per required column; built by
`run_cycle` only after it has checked that every required column is present. -/
structure Idx where
  symbol : Nat
  qty : Nat
  triggerPrice : Nat
  trailingPct : Nat
  stopPct : Nat
  tif : Nat
  profile : Nat
deriving DecidableEq

/-- The errors `validate_row` can raise: a missing cell is Python's
`IndexError` from `row[idx[...]]`, the rest are the `ValueError`s raised at
the corresponding check or by `int`/`float` parsing. -/
inductive ValErr where
  | missingCell
  | invalidSymbol
  | qtyParse
  | qtyZero
  | triggerParse
  | triggerNonPos
  | trailParse
  | stopParse
  | pctRange
deriving DecidableEq

/-- The tuple `validate_row` returns on success. -/
structure RowData where
  sym : String
  qty : Int
  trigger : ℚ
  trail_pct : ℚ
  stop_pct : ℚ
  tif : String
deriving DecidableEq

deriving instance DecidableEq for Except

/-- `validate_row` from `v3_trailing_orders.py` lines 181-194, with the
checks in the source's order: symbol alphabetic after trim/upper, quantity a
nonzero integer, trigger price a float `> 0`, trailing then stop percentage
floats, both in `[0, 100]`, TIF passed through verbatim. -/
def validate_row (row : List String) (idx : Idx) : Except ValErr RowData :=
  match row.get? idx.symbol with
  | none => .error .missingCell
  | some symCell =>
    let sym := pyUpper (pyStrip symCell)
    if !(decide (0 < sym.length) && sym.data.all Char.isAlpha) then .error .invalidSymbol
    else match row.get? idx.qty with
    | none => .error .missingCell
    | some qtyCell =>
      match parseIntStr qtyCell with
      | none => .error .qtyParse
      | some qty =>
        if qty = 0 then .error .qtyZero
        else match row.get? idx.triggerPrice with
        | none => .error .missingCell
        | some trigCell =>
          match parseFloatStr trigCell with
          | none => .error .triggerParse
          | some trigger =>
            if trigger ≤ 0 then .error .triggerNonPos
            else match row.get? idx.trailingPct with
            | none => .error .missingCell
            | some trailCell =>
              match parseFloatStr trailCell with
              | none => .error .trailParse
              | some trail_pct =>
                match row.get? idx.stopPct with
                | none => .error .missingCell
                | some stopCell =>
                  match parseFloatStr stopCell with
                  | none => .error .stopParse
                  | some stop_pct =>
                    if trail_pct < 0 ∨ 100 < trail_pct then .error .pctRange
                    else if stop_pct < 0 ∨ 100 < stop_pct then .error .pctRange
                    else match row.get? idx.tif with
                    | none => .error .missingCell
                    | some tifCell =>
                      .ok ⟨sym, qty, trigger, trail_pct, stop_pct, tifCell⟩

/-- Whether an `Except` result is a success. -/
def exceptOk {ε α : Type} (e : Except ε α) : Bool :=
  match e with
  | .ok _ => true
  | .error _ => false

/-- Acceptance condition written from the spec's words, the refinement side
of the validator claim: the symbol is alphabetic after trimming and
upper-casing, the quantity parses as a nonzero integer, the trigger price
parses as a float strictly greater than zero, the trailing and stop
percentages parse as floats in `[0, 100]`; additionally every referenced
cell must be present in the row (the spec presumes the row supplies each
required column). -/
def validateSpec (row : List String) (idx : Idx) : Bool :=
  match row.get? idx.symbol with
  | none => false
  | some sc =>
    (decide (0 < (pyUpper (pyStrip sc)).length) &&
        (pyUpper (pyStrip sc)).data.all Char.isAlpha) &&
    match row.get? idx.qty with
    | none => false
    | some qc =>
      match parseIntStr qc with
      | none => false
      | some q =>
        decide (q ≠ 0) &&
        match row.get? idx.triggerPrice with
        | none => false
        | some tc =>
          match parseFloatStr tc with
          | none => false
          | some tr =>
            decide (0 < tr) &&
            match row.get? idx.trailingPct with
            | none => false
            | some rc =>
              match parseFloatStr rc with
              | none => false
              | some tpct =>
                match row.get? idx.stopPct with
                | none => false
                | some pcCell =>
                  match parseFloatStr pcCell with
                  | none => false
                  | some spct =>
                    decide (0 ≤ tpct ∧ tpct ≤ 100) &&
                    decide (0 ≤ spct ∧ spct ≤ 100) &&
                    match row.get? idx.tif with
                    | none => false
                    | some _ => true

/-- One recorded `placeOrder(oid, contract, ord)` invocation: the order id
passed, the contract's symbol, and the order object. -/
structure PlaceCall where
  oid : Int
  symbol : String
  ord : Order
deriving DecidableEq

/-- The observable state `run_cycle` reads and writes: `app.nextOrderId`,
the sequence of `placeOrder` invocations, the sequence of `cancelOrder`
invocations (the v2/v3 sources never issue one, so this list only ever
stays as it is), and the rows appended to the live and active sheet ranges. -/
structure CycleState where
  nextOrderId : Int
  calls : List PlaceCall
  cancels : List Int
  liveAppends : List (List String)
  activeAppends : List (List String)
deriving DecidableEq

/-- The OCA group string `f"OCA_{profile}_{sym}_{int(time.time())}_{random.randint(0,999)}"`;
the clock reading `t` and random draw `r` are passed in as parameters. -/
def ocaName (profile sym : String) (t : Int) (r : Nat) : String :=
  "OCA_" ++ profile ++ "_" ++ sym ++ "_" ++ toString t ++ "_" ++ toString r

/-- The body of the `for row in rows[1:]` loop of `run_cycle`
(`v3_trailing_orders.py` lines 241-264). The whole body runs under
`try`/`except`, so any raise (missing cell, validation error, a `placeOrder`
call raising) abandons the rest of the row while keeping the effects already
performed. `gw oid` says whether the `placeOrder` call for order id `oid`
returns normally; `app.nextOrderId += 1` runs only after the call returns.
Sheet appends are modelled as always succeeding. -/
def process_row (profile ts : String) (t : Int) (r : Nat) (gw : Int → Bool)
    (idx : Idx) (st : CycleState) (row : List String) : CycleState :=
  match row.get? idx.profile with
  | none => st
  | some pc =>
    if pyStrip pc ≠ profile then st
    else match validate_row row idx with
      | .error _ => st
      | .ok d =>
        let avg_price := d.trigger
        let trail_amt := avg_price * d.trail_pct / 100
        let stop_price := avg_price * (1 - d.stop_pct / 100)
        let oca := ocaName profile d.sym t r
        let legs := build_orders d.qty d.trigger trail_amt stop_price d.tif oca
        let oid := st.nextOrderId
        let st1 := { st with calls := st.calls ++ [⟨oid, d.sym, legs.1⟩] }
        if gw oid = false then st1
        else
          let st2 := { st1 with nextOrderId := oid + 1 }
          let oid2 := st2.nextOrderId
          let st3 := { st2 with calls := st2.calls ++ [⟨oid2, d.sym, legs.2⟩] }
          if gw oid2 = false then st3
          else
            let st4 := { st3 with nextOrderId := oid2 + 1 }
            { st4 with
                liveAppends := st4.liveAppends ++
                  [[ts, profile, d.sym, toString d.qty, "PLACED", toString oid]]
                activeAppends := st4.activeAppends ++
                  [[ts, profile, d.sym, toString d.qty, "OCA", oca]] }

/-- Index of the last occurrence of `name` in the header list: the Python
dict comprehension `{h: i for i, h in enumerate(headers)}` keeps the last
index when a header repeats. -/
def lastIndexOf (hs : List String) (name : String) : Option Nat :=
  ((hs.enum.filter (fun p => p.2 = name)).map (fun p => p.1)).getLast?

/-- The required-columns check of `run_cycle`: `some` indices exactly when
every required column name occurs in the lowercased, trimmed header. -/
def mkIdx (headers : List String) : Option Idx := do
  let s ← lastIndexOf headers "symbol"
  let q ← lastIndexOf headers "qty"
  let tp ← lastIndexOf headers "trigger price"
  let tr ← lastIndexOf headers "trailing %"
  let sp ← lastIndexOf headers "stop %"
  let tf ← lastIndexOf headers "tif"
  let pf ← lastIndexOf headers "profile"
  pure ⟨s, q, tp, tr, sp, tf, pf⟩

/-- `run_cycle` from `v3_trailing_orders.py` lines 230-264. `feed = none`
models `read_planner` raising (unreachable source): the exception escapes
before any effect, so the state is returned untouched. Fewer than two rows,
or a required column missing from the header, make `run_cycle` return with
no effect; otherwise every data row is processed in order. -/
def run_cycle (profile ts : String) (t : Int) (r : Nat) (gw : Int → Bool)
    (feed : Option (List (List String))) (st : CycleState) : CycleState :=
  match feed with
  | none => st
  | some rows =>
    if rows.length < 2 then st
    else
      match rows with
      | [] => st
      | hdr :: body =>
        let headers := hdr.map (fun h => pyLower (pyStrip h))
        match mkIdx headers with
        | none => st
        | some idx => body.foldl (process_row profile ts t r gw idx) st

/-- Repeated polling: `run_cycle` once per element of `feeds`, threading the
state through, as the `while True` loop in `main` does. -/
def run_cycles (profile ts : String) (t : Int) (r : Nat) (gw : Int → Bool)
    (feeds : List (Option (List (List String)))) (st : CycleState) : CycleState :=
  feeds.foldl (fun s f => run_cycle profile ts t r gw f s) st

/-- The observable state of the `IBApp` event callback side: rows appended
to the live range and alert messages sent. -/
structure AppState where
  liveAppends : List (List String)
  alerts : List String
deriving DecidableEq

/-- `IBApp.orderStatus` from `v3_trailing_orders.py` lines 149-164: every
event appends one row to the live range, and a `Filled` event additionally
sends a Telegram and an email alert (both with the same message text). -/
def orderStatus (profile ts : String) (orderId : Int) (status : String)
    (filled avgFillPrice : ℚ) (st : AppState) : AppState :=
  let st1 := { st with liveAppends := st.liveAppends ++
    [[ts, profile, toString orderId, status, toString filled]] }
  if status = "Filled" then
    { st1 with alerts := st1.alerts ++
      ["[" ++ profile ++ "] Order " ++ toString orderId ++ " filled: " ++
        toString filled ++ " @ " ++ toString avgFillPrice] }
  else st1

/-!  Helper lemmas shared by the claim theorems below. -/

/-- A row whose dedupe-key data validates, whose profile cell matches, and
whose two `placeOrder` calls both return normally is fully processed: both
legs are submitted with consecutive order ids, the order id counter
advances by two, one row is appended to each of the live and active ranges,
and no cancel is ever issued. -/
theorem process_row_ok (profile ts : String) (t : Int) (r : Nat) (gw : Int → Bool)
    (idx : Idx) (st : CycleState) (row : List String) (pc : String) (d : RowData)
    (hpc : row.get? idx.profile = some pc) (hm : pyStrip pc = profile)
    (hv : validate_row row idx = .ok d)
    (h1 : gw st.nextOrderId = true) (h2 : gw (st.nextOrderId + 1) = true) :
    process_row profile ts t r gw idx st row =
      { nextOrderId := st.nextOrderId + 1 + 1
        calls := st.calls ++
          [⟨st.nextOrderId, d.sym,
            (build_orders d.qty d.trigger (d.trigger * d.trail_pct / 100)
              (d.trigger * (1 - d.stop_pct / 100)) d.tif (ocaName profile d.sym t r)).1⟩,
           ⟨st.nextOrderId + 1, d.sym,
            (build_orders d.qty d.trigger (d.trigger * d.trail_pct / 100)
              (d.trigger * (1 - d.stop_pct / 100)) d.tif (ocaName profile d.sym t r)).2⟩]
        cancels := st.cancels
        liveAppends := st.liveAppends ++
          [[ts, profile, d.sym, toString d.qty, "PLACED", toString st.nextOrderId]]
        activeAppends := st.activeAppends ++
          [[ts, profile, d.sym, toString d.qty, "OCA", ocaName profile d.sym t r]] } := by
  unfold process_row
  simp only [hpc, hv, hm]
  simp [h1, h2, List.append_assoc]

/-- A row whose profile cell is present but differs from the selected
profile is skipped with no effect at all. -/
theorem process_row_other_profile (profile ts : String) (t : Int) (r : Nat)
    (gw : Int → Bool) (idx : Idx) (st : CycleState) (row : List String) (pc : String)
    (hpc : row.get? idx.profile = some pc) (hne : pyStrip pc ≠ profile) :
    process_row profile ts t r gw idx st row = st := by
  unfold process_row
  rw [hpc]
  simp [hne]

/-- A row on which `validate_row` raises is skipped with no effect. -/
theorem process_row_invalid (profile ts : String) (t : Int) (r : Nat)
    (gw : Int → Bool) (idx : Idx) (st : CycleState) (row : List String) (e : ValErr)
    (hv : validate_row row idx = .error e) :
    process_row profile ts t r gw idx st row = st := by
  unfold process_row
  rcases hpc : row.get? idx.profile with _ | pc
  · rfl
  · by_cases hne : pyStrip pc = profile
    · simp only [hne, hv]
      simp
    · simp [hne]

/-- An unreachable feed leaves the state untouched. -/
theorem run_cycle_feed_down (profile ts : String) (t : Int) (r : Nat)
    (gw : Int → Bool) (st : CycleState) :
    run_cycle profile ts t r gw none st = st := rfl

/-- A header missing a required column leaves the state untouched. -/
theorem run_cycle_missing_columns (profile ts : String) (t : Int) (r : Nat)
    (gw : Int → Bool) (hdr : List String) (body : List (List String))
    (st : CycleState)
    (h : mkIdx (hdr.map (fun s => pyLower (pyStrip s))) = none) :
    run_cycle profile ts t r gw (some (hdr :: body)) st = st := by
  unfold run_cycle
  rcases body with _ | ⟨b, bs⟩
  · simp
  · simp [h]

/-- With at least one data row and every required column present, the cycle
is a fold of `process_row` over the data rows. -/
theorem run_cycle_rows (profile ts : String) (t : Int) (r : Nat)
    (gw : Int → Bool) (hdr : List String) (body : List (List String))
    (idx : Idx) (st : CycleState) (hb : body ≠ [])
    (h : mkIdx (hdr.map (fun s => pyLower (pyStrip s))) = some idx) :
    run_cycle profile ts t r gw (some (hdr :: body)) st =
      body.foldl (process_row profile ts t r gw idx) st := by
  unfold run_cycle
  rcases body with _ | ⟨b, bs⟩
  · exact absurd rfl hb
  · simp [h]

/-!  Concrete fixtures for the closed instances and witnesses below. -/

/-- A planner header row carrying every required column. -/
def hdr0 : List String := ["Profile", "Symbol", "Qty", "Trigger Price", "Trailing %", "Stop %", "TIF"]

/-- The column indices `run_cycle` derives from `hdr0`. -/
def idx0 : Idx := ⟨1, 2, 3, 4, 5, 6, 0⟩

/-- A gateway on which every `placeOrder` call returns normally. -/
def gwOk : Int → Bool := fun _ => true

/-- The engine state right after connect: order id counter at 1, nothing
placed, cancelled or appended yet. -/
def st0 : CycleState := ⟨1, [], [], [], []⟩

/-- The spec's plan-math example as a planner row: reference price 100,
trailing 5 %, stop 3 %. -/
def rowC3 : List String := ["P1", "ACME", "10", "100", "5", "3", "GTC"]

/-!  Claim theorems. -/

/-- C6: every plan built by `build_orders` has exactly two legs (the
function returns a pair and nothing else), and the two legs share the OCA
group id they were given, share the same action, and both carry quantity
equal to the absolute value of the signed quantity. -/
theorem C6_legs_share_group_action_qty (qty : Int) (tp ta sp : ℚ) (tif oca : String) :
    (build_orders qty tp ta sp tif oca).1.ocaGroup = oca ∧
    (build_orders qty tp ta sp tif oca).2.ocaGroup = oca ∧
    (build_orders qty tp ta sp tif oca).1.action = (build_orders qty tp ta sp tif oca).2.action ∧
    (build_orders qty tp ta sp tif oca).1.totalQuantity = (qty.natAbs : Int) ∧
    (build_orders qty tp ta sp tif oca).2.totalQuantity = (qty.natAbs : Int) :=
  ⟨rfl, rfl, rfl, rfl, rfl⟩

/-- C3: with reference price `p` equal to the intention's trigger price (the
only reference the code ever uses), the planner derives
`trailAmt = p * trailingPct / 100` and `stopPrice = p * (1 - stopPct / 100)`,
puts `round(trailAmt, 2)` in the trail leg's `auxPrice` and
`round(p - trailAmt - stopPrice, 2)` in its limit offset, puts
`round(stopPrice, 2)` in both `auxPrice` and `lmtPrice` of the stop leg, and
sets the action to SELL exactly when the signed quantity is positive; at
`p = 100, trailingPct = 5, stopPct = 3, triggerPrice = 100` this gives
`trailAmt = 5.00`, `stopPrice = 97.00`, `limitOffset = -2.00`, checked both
on the formulas and on a full `run_cycle` over a planner row. -/
theorem C3_plan_math :
    (∀ (qty : Int) (p trailPct stopPct : ℚ) (tif oca : String),
      (build_orders qty p (p * trailPct / 100) (p * (1 - stopPct / 100)) tif oca).1.auxPrice =
        round2 (p * trailPct / 100) ∧
      (build_orders qty p (p * trailPct / 100) (p * (1 - stopPct / 100)) tif oca).1.lmtPriceOffset =
        some (round2 (p - p * trailPct / 100 - p * (1 - stopPct / 100))) ∧
      (build_orders qty p (p * trailPct / 100) (p * (1 - stopPct / 100)) tif oca).2.auxPrice =
        round2 (p * (1 - stopPct / 100)) ∧
      (build_orders qty p (p * trailPct / 100) (p * (1 - stopPct / 100)) tif oca).2.lmtPrice =
        some (round2 (p * (1 - stopPct / 100))) ∧
      (build_orders qty p (p * trailPct / 100) (p * (1 - stopPct / 100)) tif oca).1.action =
        (if qty > 0 then "SELL" else "BUY") ∧
      (build_orders qty p (p * trailPct / 100) (p * (1 - stopPct / 100)) tif oca).2.action =
        (if qty > 0 then "SELL" else "BUY")) ∧
    ((100 : ℚ) * 5 / 100 = 5 ∧
      (100 : ℚ) * (1 - 3 / 100) = 97 ∧
      round2 ((100 : ℚ) * 5 / 100) = 5 ∧
      round2 ((100 : ℚ) * (1 - 3 / 100)) = 97 ∧
      round2 ((100 : ℚ) - 100 * 5 / 100 - 100 * (1 - 3 / 100)) = -2 ∧
      (run_cycle "P1" "ts" 7 3 gwOk (some [hdr0, rowC3]) st0).calls =
        [⟨1, "ACME", ⟨"SELL", 10, "TRAIL LIMIT", 5, some (-2), none, "GTC", "OCA_P1_ACME_7_3", 1⟩⟩,
         ⟨2, "ACME", ⟨"SELL", 10, "STP LMT", 97, none, some 97, "GTC", "OCA_P1_ACME_7_3", 1⟩⟩]) :=
  ⟨fun _ _ _ _ _ _ => ⟨rfl, rfl, rfl, rfl, rfl, rfl⟩, by decide⟩

/-- C7 (amended): `orderStatus` keeps no per-order tracking at all — every
status event, whether or not any record of the order id exists anywhere,
appends exactly one audit row to the live range, and exactly the `Filled`
events additionally send an alert. -/
theorem C7_amended_every_event_audited (profile ts : String) (orderId : Int)
    (status : String) (filled avgFillPrice : ℚ) (st : AppState) :
    (orderStatus profile ts orderId status filled avgFillPrice st).liveAppends =
      st.liveAppends ++ [[ts, profile, toString orderId, status, toString filled]] ∧
    (orderStatus profile ts orderId status filled avgFillPrice st).alerts =
      (if status = "Filled" then
        st.alerts ++ ["[" ++ profile ++ "] Order " ++ toString orderId ++ " filled: " ++
          toString filled ++ " @ " ++ toString avgFillPrice]
      else st.alerts) := by
  unfold orderStatus
  split <;> simp_all

/-- C7 counterexample: a `Filled` event for order id 999 — an id tracked
nowhere, since the code keeps no order-id table — is not discarded: it
writes one audit row to the live range and sends one alert, contradicting
the claim that such events are dropped without writing any audit entry. -/
theorem C7_counterexample :
    (orderStatus "P1" "ts" 999 "Filled" 0 0 ⟨[], []⟩).liveAppends.length = 1 ∧
    (orderStatus "P1" "ts" 999 "Filled" 0 0 ⟨[], []⟩).alerts.length = 1 := by
  decide

/-- C10: a planner row whose trimmed profile cell differs from the
`--profile` argument (passed through verbatim into `run_cycle`) is skipped
with the state completely unchanged: no `placeOrder` call, no order id
consumed, no cancel, and no append to the live or active ranges. -/
theorem C10_other_profile_skipped (profile ts : String) (t : Int) (r : Nat)
    (gw : Int → Bool) (idx : Idx) (st : CycleState) (row : List String) (pc : String)
    (hpc : row.get? idx.profile = some pc) (hne : pyStrip pc ≠ profile) :
    process_row profile ts t r gw idx st row = st := by
  unfold process_row
  rw [hpc]
  simp [hne]

/-- Witness for C10 at a concrete row whose profile cell reads `P2` while
the selected profile is `P1`. -/
theorem C10_other_profile_skipped_witness :
    (["  P2", "ACME", "10", "100", "5", "3", "GTC"].get? idx0.profile = some "  P2") ∧
    pyStrip "  P2" ≠ "P1" ∧
    process_row "P1" "ts" 7 3 gwOk idx0 st0 ["  P2", "ACME", "10", "100", "5", "3", "GTC"] = st0 :=
  ⟨by decide, by decide,
    C10_other_profile_skipped "P1" "ts" 7 3 gwOk idx0 st0 _ "  P2" (by decide) (by decide)⟩

/-- A one-row planner feed used by the C1 counterexample. -/
def feedC1 : List (List String) := [hdr0, ["P1", "AAAA", "10", "100", "5", "3", "GTC"]]

/-- C1 counterexample: the engine keeps no dedupe state whatsoever, so two
polling cycles that see the same feed row for the key `(P1, AAAA)` invoke
`placeOrder` for the trail leg twice (and likewise for the stop leg),
contradicting the claim that `placeOrder` is invoked at most once per leg
per dedupe key across repeated cycles. -/
theorem C1_counterexample :
    ¬ (((run_cycles "P1" "ts" 7 3 gwOk [some feedC1, some feedC1] st0).calls.filter
        (fun c => decide (c.ord.orderType = "TRAIL LIMIT"))).length ≤ 1) ∧
    ((run_cycles "P1" "ts" 7 3 gwOk [some feedC1, some feedC1] st0).calls.filter
        (fun c => decide (c.ord.orderType = "TRAIL LIMIT"))).length = 2 := by
  decide

/-- C1 (amended): there is no dedupe record and no Submitting/Submitted
state; instead, within one polling cycle a matching valid row causes
exactly one `placeOrder` call per leg, and a second cycle that sees the
same row calls `placeOrder` again for the same key, two more times. -/
theorem C1_amended_no_dedupe (profile ts : String) (t : Int) (r : Nat) (gw : Int → Bool)
    (idx : Idx) (st : CycleState) (row : List String) (pc : String) (d : RowData)
    (hpc : row.get? idx.profile = some pc) (hm : pyStrip pc = profile)
    (hv : validate_row row idx = .ok d)
    (h1 : gw st.nextOrderId = true) (h2 : gw (st.nextOrderId + 1) = true)
    (h3 : gw (st.nextOrderId + 1 + 1) = true) (h4 : gw (st.nextOrderId + 1 + 1 + 1) = true) :
    (process_row profile ts t r gw idx st row).calls.length = st.calls.length + 2 ∧
    (process_row profile ts t r gw idx (process_row profile ts t r gw idx st row) row).calls.length =
      st.calls.length + 4 := by
  constructor
  · rw [process_row_ok profile ts t r gw idx st row pc d hpc hm hv h1 h2]
    simp
  · rw [process_row_ok profile ts t r gw idx st row pc d hpc hm hv h1 h2]
    rw [process_row_ok profile ts t r gw idx _ row pc d hpc hm hv h3 h4]
    simp

/-- Witness for C1 (amended) at the concrete key `(P1, DDDD)`. -/
theorem C1_amended_no_dedupe_witness :
    (["P1", "DDDD", "10", "100", "5", "3", "GTC"].get? idx0.profile = some "P1") ∧
    pyStrip "P1" = "P1" ∧
    validate_row ["P1", "DDDD", "10", "100", "5", "3", "GTC"] idx0 =
      .ok ⟨"DDDD", 10, 100, 5, 3, "GTC"⟩ ∧
    (process_row "P1" "ts" 7 3 gwOk idx0 st0
      ["P1", "DDDD", "10", "100", "5", "3", "GTC"]).calls.length = st0.calls.length + 2 ∧
    (process_row "P1" "ts" 7 3 gwOk idx0
        (process_row "P1" "ts" 7 3 gwOk idx0 st0 ["P1", "DDDD", "10", "100", "5", "3", "GTC"])
        ["P1", "DDDD", "10", "100", "5", "3", "GTC"]).calls.length = st0.calls.length + 4 :=
  ⟨by decide, by decide, by decide,
    (C1_amended_no_dedupe "P1" "ts" 7 3 gwOk idx0 st0 _ "P1" ⟨"DDDD", 10, 100, 5, 3, "GTC"⟩
      (by decide) (by decide) (by decide) (by decide) (by decide) (by decide) (by decide)).1,
    (C1_amended_no_dedupe "P1" "ts" 7 3 gwOk idx0 st0 _ "P1" ⟨"DDDD", 10, 100, 5, 3, "GTC"⟩
      (by decide) (by decide) (by decide) (by decide) (by decide) (by decide) (by decide)).2⟩

/-- A gateway whose `placeOrder` returns normally for order id 1 and raises
for order id 2, modelling "trail leg accepted, stop leg fails". -/
def gwTrailOnly : Int → Bool := fun i => decide (i < 2)

/-- A one-row planner feed used by the C2 counterexample. -/
def feedC2 : List (List String) := [hdr0, ["P1", "BBBB", "3", "200", "6", "2", "GTC"]]

/-- C2 counterexample: with the trail leg's `placeOrder` accepted (id 1)
and the stop leg's call raising (id 2), the engine issues no `cancelOrder`
at all — the cancels log stays empty, not of length one — and no failure
state exists to record; the trail order is simply left live. -/
theorem C2_counterexample :
    (run_cycle "P1" "ts" 7 3 gwTrailOnly (some feedC2) st0).calls.length = 2 ∧
    (run_cycle "P1" "ts" 7 3 gwTrailOnly (some feedC2) st0).cancels = [] ∧
    ¬ ((run_cycle "P1" "ts" 7 3 gwTrailOnly (some feedC2) st0).cancels.length = 1) := by
  decide

/-- C2 (amended): when the trail leg's `placeOrder` raises, the stop leg is
never submitted (one call recorded, nothing else changed); when the trail
leg is accepted and the stop leg's `placeOrder` raises, both calls are
recorded, the order id counter has advanced once, and no compensating
`cancelOrder` is issued and nothing marks the intention failed — the
cancels log and both sheet ranges keep their previous contents. -/
theorem C2_amended_no_compensation (profile ts : String) (t : Int) (r : Nat)
    (gw : Int → Bool) (idx : Idx) (st : CycleState) (row : List String) (pc : String)
    (d : RowData)
    (hpc : row.get? idx.profile = some pc) (hm : pyStrip pc = profile)
    (hv : validate_row row idx = .ok d) :
    (gw st.nextOrderId = false →
      process_row profile ts t r gw idx st row =
        { st with calls := st.calls ++
            [⟨st.nextOrderId, d.sym,
              (build_orders d.qty d.trigger (d.trigger * d.trail_pct / 100)
                (d.trigger * (1 - d.stop_pct / 100)) d.tif (ocaName profile d.sym t r)).1⟩] }) ∧
    (gw st.nextOrderId = true → gw (st.nextOrderId + 1) = false →
      process_row profile ts t r gw idx st row =
        { st with
            nextOrderId := st.nextOrderId + 1
            calls := st.calls ++
              [⟨st.nextOrderId, d.sym,
                (build_orders d.qty d.trigger (d.trigger * d.trail_pct / 100)
                  (d.trigger * (1 - d.stop_pct / 100)) d.tif (ocaName profile d.sym t r)).1⟩,
               ⟨st.nextOrderId + 1, d.sym,
                (build_orders d.qty d.trigger (d.trigger * d.trail_pct / 100)
                  (d.trigger * (1 - d.stop_pct / 100)) d.tif (ocaName profile d.sym t r)).2⟩] }) := by
  unfold process_row
  simp only [hpc, hv, hm]
  constructor
  · intro hg1
    simp [hg1]
  · intro hg1 hg2
    simp [hg1, hg2, List.append_assoc]

/-- Witness for C2 (amended): the trail-fails half at a gateway that raises
on every call, and the stop-fails half at `gwTrailOnly`. -/
theorem C2_amended_no_compensation_witness :
    (["P1", "BBBB", "3", "200", "6", "2", "GTC"].get? idx0.profile = some "P1") ∧
    validate_row ["P1", "BBBB", "3", "200", "6", "2", "GTC"] idx0 =
      .ok ⟨"BBBB", 3, 200, 6, 2, "GTC"⟩ ∧
    (fun _ => false : Int → Bool) st0.nextOrderId = false ∧
    process_row "P1" "ts" 7 3 (fun _ => false) idx0 st0
        ["P1", "BBBB", "3", "200", "6", "2", "GTC"] =
      { st0 with calls := st0.calls ++
          [⟨st0.nextOrderId, "BBBB",
            (build_orders 3 200 (200 * 6 / 100) (200 * (1 - 2 / 100)) "GTC"
              (ocaName "P1" "BBBB" 7 3)).1⟩] } ∧
    gwTrailOnly st0.nextOrderId = true ∧ gwTrailOnly (st0.nextOrderId + 1) = false ∧
    process_row "P1" "ts" 7 3 gwTrailOnly idx0 st0
        ["P1", "BBBB", "3", "200", "6", "2", "GTC"] =
      { st0 with
          nextOrderId := st0.nextOrderId + 1
          calls := st0.calls ++
            [⟨st0.nextOrderId, "BBBB",
              (build_orders 3 200 (200 * 6 / 100) (200 * (1 - 2 / 100)) "GTC"
                (ocaName "P1" "BBBB" 7 3)).1⟩,
             ⟨st0.nextOrderId + 1, "BBBB",
              (build_orders 3 200 (200 * 6 / 100) (200 * (1 - 2 / 100)) "GTC"
                (ocaName "P1" "BBBB" 7 3)).2⟩] } :=
  ⟨by decide, by decide, rfl,
    (C2_amended_no_compensation "P1" "ts" 7 3 (fun _ => false) idx0 st0 _ "P1"
      ⟨"BBBB", 3, 200, 6, 2, "GTC"⟩ (by decide) (by decide) (by decide)).1 rfl,
    by decide, by decide,
    (C2_amended_no_compensation "P1" "ts" 7 3 gwTrailOnly idx0 st0 _ "P1"
      ⟨"BBBB", 3, 200, 6, 2, "GTC"⟩ (by decide) (by decide) (by decide)).2
      (by decide) (by decide)⟩

/-- A sell-side planner row with stop percentage 0, so that
`stopPrice = p * (1 - 0/100) = p`, which the claim says must be rejected. -/
def rowC4 : List String := ["P1", "CCCC", "10", "100", "5", "0", "GTC"]

/-- C4 counterexample: for the sell-side row `rowC4` the protective stop
price equals the reference price (`stopPrice = 100 = p`, so
`stopPrice >= p`), yet planning does not reject anything: both legs are
submitted — the second call's order carries `auxPrice = 100` and action
SELL. No rejection value exists anywhere in the code. -/
theorem C4_counterexample :
    (run_cycle "P1" "ts" 7 3 gwOk (some [hdr0, rowC4]) st0).calls.length = 2 ∧
    ((run_cycle "P1" "ts" 7 3 gwOk (some [hdr0, rowC4]) st0).calls.get? 1).map
      (fun c => c.ord.auxPrice) = some 100 ∧
    ((run_cycle "P1" "ts" 7 3 gwOk (some [hdr0, rowC4]) st0).calls.get? 1).map
      (fun c => c.ord.action) = some "SELL" := by
  decide

/-- C4 (amended): planning has no validation gate at all — for every
matching valid row, both legs are built and submitted even when the plan is
sell-side and the derived stop price is not below the reference price. -/
theorem C4_amended_no_validation_gate (profile ts : String) (t : Int) (r : Nat)
    (gw : Int → Bool) (idx : Idx) (st : CycleState) (row : List String) (pc : String)
    (d : RowData)
    (hpc : row.get? idx.profile = some pc) (hm : pyStrip pc = profile)
    (hv : validate_row row idx = .ok d)
    (h1 : gw st.nextOrderId = true) (h2 : gw (st.nextOrderId + 1) = true)
    (_hsell : 0 < d.qty) (_hstop : d.trigger ≤ d.trigger * (1 - d.stop_pct / 100)) :
    (process_row profile ts t r gw idx st row).calls.length = st.calls.length + 2 ∧
    (process_row profile ts t r gw idx st row).calls.getLast? =
      some ⟨st.nextOrderId + 1, d.sym,
        (build_orders d.qty d.trigger (d.trigger * d.trail_pct / 100)
          (d.trigger * (1 - d.stop_pct / 100)) d.tif (ocaName profile d.sym t r)).2⟩ := by
  rw [process_row_ok profile ts t r gw idx st row pc d hpc hm hv h1 h2]
  constructor
  · simp
  · simp

/-- Witness for C4 (amended) at `rowC4`, where the stop percentage 0 makes
the stop price coincide with the reference price. -/
theorem C4_amended_no_validation_gate_witness :
    (rowC4.get? idx0.profile = some "P1") ∧
    validate_row rowC4 idx0 = .ok ⟨"CCCC", 10, 100, 5, 0, "GTC"⟩ ∧
    (0 : Int) < 10 ∧ (100 : ℚ) ≤ 100 * (1 - 0 / 100) ∧
    (process_row "P1" "ts" 7 3 gwOk idx0 st0 rowC4).calls.length = st0.calls.length + 2 :=
  ⟨by decide, by decide, by decide, by decide,
    (C4_amended_no_validation_gate "P1" "ts" 7 3 gwOk idx0 st0 rowC4 "P1"
      ⟨"CCCC", 10, 100, 5, 0, "GTC"⟩ (by decide) (by decide) (by decide) (by decide)
      (by decide) (by decide) (by decide)).1⟩

/-- A one-row planner feed used by the C9 counterexample. -/
def feedC9 : List (List String) := [hdr0, ["P1", "ZZZ", "7", "50", "4", "2", "DAY"]]

/-- C9 counterexample: the code has no price-crossing mode, no Pending
state and no latch; its only trigger behaviour is immediate and it fires
anew on every cycle: after the first cycle has fired for the key
`(P1, ZZZ)` (two orders placed), a second cycle that sees the same row
fires again and places two more orders, contradicting the claim that a
fired trigger never re-arms for the key. -/
theorem C9_counterexample :
    (run_cycles "P1" "ts" 11 5 gwOk [some feedC9] st0).calls.length = 2 ∧
    (run_cycles "P1" "ts" 11 5 gwOk [some feedC9, some feedC9] st0).calls.length = 4 ∧
    ¬ ((run_cycles "P1" "ts" 11 5 gwOk [some feedC9, some feedC9] st0).calls.length ≤ 2) := by
  decide

/-- C9 (amended): the engine's only trigger mode treats every matching
valid row as ready on sight, and nothing is latched: a feed polled twice
with the same single row makes the engine fire twice, placing four orders
in total across the two cycles. -/
theorem C9_amended_no_latch (profile ts : String) (t : Int) (r : Nat) (gw : Int → Bool)
    (hdr row : List String) (idx : Idx) (st : CycleState) (pc : String) (d : RowData)
    (hh : mkIdx (hdr.map (fun s => pyLower (pyStrip s))) = some idx)
    (hpc : row.get? idx.profile = some pc) (hm : pyStrip pc = profile)
    (hv : validate_row row idx = .ok d)
    (h1 : gw st.nextOrderId = true) (h2 : gw (st.nextOrderId + 1) = true)
    (h3 : gw (st.nextOrderId + 1 + 1) = true) (h4 : gw (st.nextOrderId + 1 + 1 + 1) = true) :
    (run_cycles profile ts t r gw [some (hdr :: [row]), some (hdr :: [row])] st).calls.length =
      st.calls.length + 4 := by
  unfold run_cycles
  simp only [List.foldl]
  rw [run_cycle_rows profile ts t r gw hdr [row] idx st (by simp) hh]
  simp only [List.foldl]
  rw [process_row_ok profile ts t r gw idx st row pc d hpc hm hv h1 h2]
  rw [run_cycle_rows profile ts t r gw hdr [row] idx _ (by simp) hh]
  simp only [List.foldl]
  rw [process_row_ok profile ts t r gw idx _ row pc d hpc hm hv h3 h4]
  simp

/-- Witness for C9 (amended) at the concrete key `(P1, EEEE)`. -/
theorem C9_amended_no_latch_witness :
    mkIdx (hdr0.map (fun s => pyLower (pyStrip s))) = some idx0 ∧
    (["P1", "EEEE", "2", "40", "3", "1", "DAY"].get? idx0.profile = some "P1") ∧
    validate_row ["P1", "EEEE", "2", "40", "3", "1", "DAY"] idx0 =
      .ok ⟨"EEEE", 2, 40, 3, 1, "DAY"⟩ ∧
    (run_cycles "P1" "ts" 7 3 gwOk
        [some (hdr0 :: [["P1", "EEEE", "2", "40", "3", "1", "DAY"]]),
         some (hdr0 :: [["P1", "EEEE", "2", "40", "3", "1", "DAY"]])] st0).calls.length =
      st0.calls.length + 4 :=
  ⟨by decide, by decide, by decide,
    C9_amended_no_latch "P1" "ts" 7 3 gwOk hdr0 ["P1", "EEEE", "2", "40", "3", "1", "DAY"]
      idx0 st0 "P1" ⟨"EEEE", 2, 40, 3, 1, "DAY"⟩ (by decide) (by decide) (by decide)
      (by decide) (by decide) (by decide) (by decide) (by decide)⟩

/-- C8: error scoping of one polling cycle. An unreachable feed
(`read_planner` raising, `feed = none`) leaves the state untouched with no
order placed; a header missing any required column likewise aborts the
cycle with no effect; a row on which parsing or validation raises is a
no-op for the state; and when the header is intact the cycle is exactly the
row-by-row fold, so an erroring row leaves the remaining rows to be
processed as if it were absent. -/
theorem C8_feed_vs_row_errors :
    (∀ (profile ts : String) (t : Int) (r : Nat) (gw : Int → Bool) (st : CycleState),
      run_cycle profile ts t r gw none st = st) ∧
    (∀ (profile ts : String) (t : Int) (r : Nat) (gw : Int → Bool)
        (hdr : List String) (body : List (List String)) (st : CycleState),
      mkIdx (hdr.map (fun s => pyLower (pyStrip s))) = none →
      run_cycle profile ts t r gw (some (hdr :: body)) st = st) ∧
    (∀ (profile ts : String) (t : Int) (r : Nat) (gw : Int → Bool) (idx : Idx)
        (st : CycleState) (row : List String) (e : ValErr),
      validate_row row idx = .error e →
      process_row profile ts t r gw idx st row = st) ∧
    (∀ (profile ts : String) (t : Int) (r : Nat) (gw : Int → Bool)
        (hdr : List String) (body : List (List String)) (idx : Idx) (st : CycleState),
      body ≠ [] → mkIdx (hdr.map (fun s => pyLower (pyStrip s))) = some idx →
      run_cycle profile ts t r gw (some (hdr :: body)) st =
        body.foldl (process_row profile ts t r gw idx) st) :=
  ⟨run_cycle_feed_down,
   run_cycle_missing_columns,
   fun profile ts t r gw idx st row e hv =>
     process_row_invalid profile ts t r gw idx st row e hv,
   run_cycle_rows⟩

/-- Witness for C8: the unreachable-feed case, a header missing the qty
column, a row whose symbol fails validation, and an intact two-row cycle
reducing to the fold. -/
theorem C8_feed_vs_row_errors_witness :
    run_cycle "P1" "ts" 7 3 gwOk none st0 = st0 ∧
    (mkIdx ((["Profile", "Symbol"] : List String).map (fun s => pyLower (pyStrip s))) = none ∧
      run_cycle "P1" "ts" 7 3 gwOk (some [["Profile", "Symbol"], ["P1", "ACME"]]) st0 = st0) ∧
    (validate_row ["P1", "A1", "10", "100", "5", "3", "GTC"] idx0 = .error .invalidSymbol ∧
      process_row "P1" "ts" 7 3 gwOk idx0 st0 ["P1", "A1", "10", "100", "5", "3", "GTC"] = st0) ∧
    run_cycle "P1" "ts" 7 3 gwOk
        (some [hdr0, ["P1", "A1", "10", "100", "5", "3", "GTC"], rowC3]) st0 =
      [["P1", "A1", "10", "100", "5", "3", "GTC"], rowC3].foldl
        (process_row "P1" "ts" 7 3 gwOk idx0) st0 :=
  ⟨C8_feed_vs_row_errors.1 "P1" "ts" 7 3 gwOk st0,
   ⟨by decide,
    C8_feed_vs_row_errors.2.1 "P1" "ts" 7 3 gwOk ["Profile", "Symbol"] [["P1", "ACME"]] st0
      (by decide)⟩,
   ⟨by decide,
    C8_feed_vs_row_errors.2.2.1 "P1" "ts" 7 3 gwOk idx0 st0
      ["P1", "A1", "10", "100", "5", "3", "GTC"] .invalidSymbol (by decide)⟩,
   C8_feed_vs_row_errors.2.2.2 "P1" "ts" 7 3 gwOk hdr0
     [["P1", "A1", "10", "100", "5", "3", "GTC"], rowC3] idx0 st0 (by decide) (by decide)⟩

/-- C5: `validate_row` accepts a raw row exactly when the spec's conditions
hold (`validateSpec`, written from the spec's words: alphabetic symbol after
trim/upper-case, nonzero integer quantity, float trigger price strictly
positive, float trailing and stop percentages within `[0, 100]`, and every
referenced cell present); on acceptance the produced intention carries the
trimmed upper-cased symbol, the parsed numeric fields satisfying those
bounds, and the TIF cell passed through unchanged. On any failure
`validate_row` signals which check raised (`ValErr`). -/
theorem C5_validator_accepts_iff (row : List String) (idx : Idx) :
    exceptOk (validate_row row idx) = validateSpec row idx ∧
    (∀ d, validate_row row idx = .ok d →
      d.sym = pyUpper (pyStrip ((row.get? idx.symbol).getD "")) ∧
      parseIntStr ((row.get? idx.qty).getD "") = some d.qty ∧ d.qty ≠ 0 ∧
      parseFloatStr ((row.get? idx.triggerPrice).getD "") = some d.trigger ∧
        0 < d.trigger ∧
      parseFloatStr ((row.get? idx.trailingPct).getD "") = some d.trail_pct ∧
        0 ≤ d.trail_pct ∧ d.trail_pct ≤ 100 ∧
      parseFloatStr ((row.get? idx.stopPct).getD "") = some d.stop_pct ∧
        0 ≤ d.stop_pct ∧ d.stop_pct ≤ 100 ∧
      row.get? idx.tif = some d.tif) := by
  refine ⟨?_, ?_⟩
  · simp only [validate_row, validateSpec]
    rcases h1 : row.get? idx.symbol with _ | sc
    · rfl
    try dsimp only
    cases hsym : (decide (0 < (pyUpper (pyStrip sc)).length) &&
        (pyUpper (pyStrip sc)).data.all Char.isAlpha)
    · simp [exceptOk]
    try dsimp only
    rcases h2 : row.get? idx.qty with _ | qc
    · simp [exceptOk]
    try dsimp only
    rcases hq : parseIntStr qc with _ | q
    · simp [exceptOk]
    try dsimp only
    by_cases hq0 : q = 0
    · subst hq0
      simp [exceptOk]
    rw [if_neg hq0]
    rcases h3 : row.get? idx.triggerPrice with _ | tc
    · simp [exceptOk]
    try dsimp only
    rcases ht : parseFloatStr tc with _ | tr
    · simp [exceptOk]
    try dsimp only
    by_cases ht0 : tr ≤ 0
    · rw [if_pos ht0]
      simp [exceptOk, not_lt.mpr ht0]
    rw [if_neg ht0]
    rcases h4 : row.get? idx.trailingPct with _ | rc
    · simp [exceptOk]
    try dsimp only
    rcases hr : parseFloatStr rc with _ | tpct
    · simp [exceptOk]
    try dsimp only
    rcases h5 : row.get? idx.stopPct with _ | pcCell
    · simp [exceptOk]
    try dsimp only
    rcases hp : parseFloatStr pcCell with _ | spct
    · simp [exceptOk]
    try dsimp only
    by_cases hr1 : tpct < 0 ∨ 100 < tpct
    · rw [if_pos hr1]
      have hnot : ¬ (0 ≤ tpct ∧ tpct ≤ 100) := by
        rcases hr1 with h | h
        · exact fun hc => absurd h (not_lt.mpr hc.1)
        · exact fun hc => absurd h (not_lt.mpr hc.2)
      simp [exceptOk, hnot]
    rw [if_neg hr1]
    have hok1 : 0 ≤ tpct ∧ tpct ≤ 100 := by
      rcases not_or.mp hr1 with ⟨a, b⟩
      exact ⟨not_lt.mp a, not_lt.mp b⟩
    by_cases hp1 : spct < 0 ∨ 100 < spct
    · rw [if_pos hp1]
      have hnot : ¬ (0 ≤ spct ∧ spct ≤ 100) := by
        rcases hp1 with h | h
        · exact fun hc => absurd h (not_lt.mpr hc.1)
        · exact fun hc => absurd h (not_lt.mpr hc.2)
      simp [exceptOk, hnot, hok1]
    rw [if_neg hp1]
    have hok2 : 0 ≤ spct ∧ spct ≤ 100 := by
      rcases not_or.mp hp1 with ⟨a, b⟩
      exact ⟨not_lt.mp a, not_lt.mp b⟩
    rcases h6 : row.get? idx.tif with _ | fc
    · simp [exceptOk]
    simp [exceptOk, hq0, not_le.mp ht0, hok1, hok2]
  · intro d h
    simp only [validate_row] at h
    rcases h1 : row.get? idx.symbol with _ | sc
    · rw [h1] at h
      exact absurd h (by simp)
    rw [h1] at h
    try dsimp only at h
    cases hsym : (decide (0 < (pyUpper (pyStrip sc)).length) &&
        (pyUpper (pyStrip sc)).data.all Char.isAlpha) <;> rw [hsym] at h
    · exact absurd h (by simp)
    try dsimp only at h
    rcases h2 : row.get? idx.qty with _ | qc <;> rw [h2] at h
    · exact absurd h (by simp)
    try dsimp only at h
    rcases hq : parseIntStr qc with _ | q <;> rw [hq] at h
    · exact absurd h (by simp)
    try dsimp only at h
    by_cases hq0 : q = 0
    · rw [if_pos hq0] at h
      exact absurd h (by simp)
    rw [if_neg hq0] at h
    rcases h3 : row.get? idx.triggerPrice with _ | tc <;> rw [h3] at h
    · exact absurd h (by simp)
    try dsimp only at h
    rcases ht : parseFloatStr tc with _ | tr <;> rw [ht] at h
    · exact absurd h (by simp)
    try dsimp only at h
    by_cases ht0 : tr ≤ 0
    · rw [if_pos ht0] at h
      exact absurd h (by simp)
    rw [if_neg ht0] at h
    rcases h4 : row.get? idx.trailingPct with _ | rc <;> rw [h4] at h
    · exact absurd h (by simp)
    try dsimp only at h
    rcases hr : parseFloatStr rc with _ | tpct <;> rw [hr] at h
    · exact absurd h (by simp)
    try dsimp only at h
    rcases h5 : row.get? idx.stopPct with _ | pcCell <;> rw [h5] at h
    · exact absurd h (by simp)
    try dsimp only at h
    rcases hp : parseFloatStr pcCell with _ | spct <;> rw [hp] at h
    · exact absurd h (by simp)
    try dsimp only at h
    by_cases hr1 : tpct < 0 ∨ 100 < tpct
    · rw [if_pos hr1] at h
      exact absurd h (by simp)
    rw [if_neg hr1] at h
    have hok1 : 0 ≤ tpct ∧ tpct ≤ 100 := by
      rcases not_or.mp hr1 with ⟨a, b⟩
      exact ⟨not_lt.mp a, not_lt.mp b⟩
    by_cases hp1 : spct < 0 ∨ 100 < spct
    · rw [if_pos hp1] at h
      exact absurd h (by simp)
    rw [if_neg hp1] at h
    have hok2 : 0 ≤ spct ∧ spct ≤ 100 := by
      rcases not_or.mp hp1 with ⟨a, b⟩
      exact ⟨not_lt.mp a, not_lt.mp b⟩
    rcases h6 : row.get? idx.tif with _ | fc <;> rw [h6] at h
    · exact absurd h (by simp)
    try dsimp only at h
    have hd : d = ⟨pyUpper (pyStrip sc), q, tr, tpct, spct, fc⟩ := by
      cases h
      rfl
    subst hd
    refine ⟨by simp [h1], by simp [h2, hq], hq0, by simp [h3, ht], not_le.mp ht0,
      by simp [h4, hr], hok1.1, hok1.2, by simp [h5, hp], hok2.1, hok2.2, by simp [h6]⟩

/-- A raw planner row exercising trimming, upper-casing, a negative
quantity and a fractional trigger price, used by the C5 witness. -/
def rowC5 : List String := ["p1", " fff ", "-4", "12.5", "1", "99", "IOC"]

/-- Witness for C5 at `rowC5`: the acceptance equivalence instantiated, the
concrete acceptance fact, and the produced intention's fields. -/
theorem C5_validator_accepts_iff_witness :
    exceptOk (validate_row rowC5 idx0) = validateSpec rowC5 idx0 ∧
    validate_row rowC5 idx0 = .ok ⟨"FFF", -4, 25 / 2, 1, 99, "IOC"⟩ ∧
    ((⟨"FFF", -4, 25 / 2, 1, 99, "IOC"⟩ : RowData).sym = pyUpper (pyStrip ((rowC5.get? idx0.symbol).getD "")) ∧
      parseIntStr ((rowC5.get? idx0.qty).getD "") = some (⟨"FFF", -4, 25 / 2, 1, 99, "IOC"⟩ : RowData).qty ∧ (⟨"FFF", -4, 25 / 2, 1, 99, "IOC"⟩ : RowData).qty ≠ 0 ∧
      parseFloatStr ((rowC5.get? idx0.triggerPrice).getD "") = some (⟨"FFF", -4, 25 / 2, 1, 99, "IOC"⟩ : RowData).trigger ∧
        0 < (⟨"FFF", -4, 25 / 2, 1, 99, "IOC"⟩ : RowData).trigger ∧
      parseFloatStr ((rowC5.get? idx0.trailingPct).getD "") = some (⟨"FFF", -4, 25 / 2, 1, 99, "IOC"⟩ : RowData).trail_pct ∧
        0 ≤ (⟨"FFF", -4, 25 / 2, 1, 99, "IOC"⟩ : RowData).trail_pct ∧ (⟨"FFF", -4, 25 / 2, 1, 99, "IOC"⟩ : RowData).trail_pct ≤ 100 ∧
      parseFloatStr ((rowC5.get? idx0.stopPct).getD "") = some (⟨"FFF", -4, 25 / 2, 1, 99, "IOC"⟩ : RowData).stop_pct ∧
        0 ≤ (⟨"FFF", -4, 25 / 2, 1, 99, "IOC"⟩ : RowData).stop_pct ∧ (⟨"FFF", -4, 25 / 2, 1, 99, "IOC"⟩ : RowData).stop_pct ≤ 100 ∧
      rowC5.get? idx0.tif = some (⟨"FFF", -4, 25 / 2, 1, 99, "IOC"⟩ : RowData).tif) :=
  ⟨(C5_validator_accepts_iff rowC5 idx0).1, by decide,
    (C5_validator_accepts_iff rowC5 idx0).2 (⟨"FFF", -4, 25 / 2, 1, 99, "IOC"⟩ : RowData) (by decide)⟩

end IbkrBot
